import Mathlib

/-!
Verification of the DmarcSentinel configuration package.

Shallow embedding of `internal/config/config.go` (the `config` package:
`Load`, `LoadWithFlags`, `setDefaults`, `validate`) and of `maskPassword`
from `cmd/dmarc-viewer/main.go`.

The Go code delegates layered key resolution to the viper library and
CLI-flag parsing to pflag.  The embedding models the exact viper features
the source exercises, following viper's documented and implemented
semantics:

* `SetDefault` / `Set` / a parsed config file each populate one layer of a
  per-instance key-value store; `Get` resolves a key in precedence order
  override (`Set`) > environment (`AutomaticEnv`) > config file > defaults.
* `SetEnvPrefix "DMARC"` + `SetEnvKeyReplacer("." -> "_")` + `AutomaticEnv`:
  `Get k` consults the environment variable obtained by upper-casing
  `"DMARC_" ++ k` and replacing `.` with `_`.  An environment variable set
  to the empty string counts as unset (viper's default `allowEmptyEnv =
  false`).
* `Unmarshal` decodes `AllSettings()` into the target struct with
  mapstructure using `WeaklyTypedInput`.  `AllSettings` contains only keys
  known to the defaults / config-file / override layers (values resolved
  through `Get`, so the environment can override known keys, but an
  environment variable for a key no other layer knows is invisible to
  `Unmarshal`).
* mapstructure matches map keys to struct fields by the `mapstructure` tag,
  falling back to a case-insensitive comparison with the *field name*.  The
  source structs carry only `yaml:` tags, so mapstructure matching uses the
  field names: every field except `UseTLS` and `OnStartup` has a name equal
  (up to case) to its yaml key, while `UseTLS` / `OnStartup` match only the
  keys `usetls` / `onstartup`, which no layer in this program ever sets.
  Those two fields are therefore left at Go's zero value `false`.  The
  repository's own tests record this behaviour ("UseTLS defaults to false
  when imap section exists but field not specified", "OnStartup defaults to
  false when sync section doesn't exist in YAML").

File reading is embedded by passing the filesystem as a function from a
path to the outcome of parsing the document at that path (`ReadInConfig`):
either a parse/read error or the list of dotted-key entries the document
sets.  Entry keys are taken post-`insensitivise`, i.e. already lower-case,
as viper stores them.  pflag parsing is embedded by passing, per flag,
the optional value the user explicitly supplied on the command line
(`none` = flag absent from argv, so pflag leaves the declared default and
`.Changed = false`).
-/

/-- A dynamically typed configuration value, as held by viper's layers
(string, int and bool are the only shapes this program stores). -/
inductive GoVal where
  | str : String → GoVal
  | int : Int → GoVal
  | bool : Bool → GoVal
deriving DecidableEq, Repr

/-- The process environment: variable name / value pairs. -/
abbrev Env := List (String × String)

/-- Entries a parsed YAML document (or a viper layer) sets: dotted key to value. -/
abbrev FileEntries := List (String × GoVal)

/-- The filesystem as seen through `viper.ReadInConfig`: maps a config-file
path to either a read/parse diagnostic or the parsed document's entries. -/
abbrev FS := String → Except String FileEntries

/-- `IMAPConfig` of `internal/config/config.go` (struct tags are `yaml:`,
e.g. the UseTLS field carries the tag yaml:"use_tls"). -/
structure IMAPConfig where
  host : String
  port : Int
  username : String
  password : String
  folder : String
  useTLS : Bool
deriving DecidableEq, Repr

/-- `DatabaseConfig` of `internal/config/config.go`. -/
structure DatabaseConfig where
  path : String
deriving DecidableEq, Repr

/-- `WebConfig` of `internal/config/config.go`. -/
structure WebConfig where
  host : String
  port : Int
deriving DecidableEq, Repr

/-- `SyncConfig` of `internal/config/config.go`. -/
structure SyncConfig where
  interval : String
  onStartup : Bool
deriving DecidableEq, Repr

/-- `LogConfig` of `internal/config/config.go`. -/
structure LogConfig where
  level : String
  format : String
deriving DecidableEq, Repr

/-- `Config` of `internal/config/config.go`. -/
structure Config where
  imap : IMAPConfig
  database : DatabaseConfig
  web : WebConfig
  sync : SyncConfig
  logging : LogConfig
deriving DecidableEq, Repr

/-- `setDefaults` (config.go lines 176-196): the defaults layer it
registers on a fresh viper instance. -/
def setDefaults : FileEntries :=
  [("imap.port", GoVal.int 993),
   ("imap.folder", GoVal.str "INBOX"),
   ("imap.use_tls", GoVal.bool true),
   ("database.path", GoVal.str "./dmarc-reports.db"),
   ("web.host", GoVal.str "localhost"),
   ("web.port", GoVal.int 8080),
   ("sync.interval", GoVal.str "15m"),
   ("sync.on_startup", GoVal.bool true),
   ("logging.level", GoVal.str "info"),
   ("logging.format", GoVal.str "text")]

/-- The state of one viper instance as configured by this program:
defaults layer (`SetDefault`), config-file layer (`ReadInConfig`),
override layer (`Set`), plus the process environment consulted through
`AutomaticEnv` with prefix `DMARC` and the `.` to `_` key replacer. -/
structure ViperState where
  defaults : FileEntries
  config : FileEntries
  override : FileEntries
  env : Env
deriving Repr

/-- The environment-variable name viper derives for a key under
`SetEnvPrefix "DMARC"` with the `.` to `_` replacer: upper-case
`"DMARC_" ++ key` with `.` replaced by `_`.  (Upper-casing does not
affect `.`, so the two steps fuse into one character map.) -/
def envVarName (key : String) : String :=
  "DMARC_" ++ String.mk (key.data.map (fun c => if c = '.' then '_' else c.toUpper))

/-- Environment lookup as `viper.getEnv` performs it under `AutomaticEnv`:
a variable set to the empty string counts as unset (`allowEmptyEnv` is
false by default). -/
def envLookup (env : Env) (key : String) : Option String :=
  match env.lookup (envVarName key) with
  | some s => if s = "" then none else some s
  | none => none

/-- `viper.Get` for the layers this program populates, in viper's
precedence order: override (`Set`) > environment > config file > defaults. -/
def viperGet (st : ViperState) (key : String) : Option GoVal :=
  match st.override.lookup key with
  | some v => some v
  | none =>
    match envLookup st.env key with
    | some s => some (GoVal.str s)
    | none =>
      match st.config.lookup key with
      | some v => some v
      | none => st.defaults.lookup key

/-- Whether a key occurs in `AllKeys()`: keys known to the override,
config-file or defaults layer.  Automatic-environment variables do not
register keys of their own. -/
def keyKnown (st : ViperState) (key : String) : Bool :=
  (st.override.lookup key).isSome || (st.config.lookup key).isSome ||
    (st.defaults.lookup key).isSome

/-- The value `AllSettings()` carries for a key: present only when the key
is known to some layer, and then resolved through `Get` (so the
environment can override known keys). -/
def fieldVal (st : ViperState) (key : String) : Option GoVal :=
  if keyKnown st key then viperGet st key else none

/-- mapstructure weak coercion to `string` (`WeaklyTypedInput`): ints are
formatted, bools become `"1"` / `"0"`. -/
def goWeakString : GoVal → String
  | GoVal.str s => s
  | GoVal.int n => toString n
  | GoVal.bool b => if b then "1" else "0"

/-- `strconv.ParseInt` as mapstructure's weak string-to-int coercion uses
it, with the empty string decoding to 0.  Only decimal (optionally signed)
integers are modelled; the exotic base-0 forms (`0x…`, `0b…`, digit
underscores) never occur in this program's values. -/
def parseGoInt (s : String) : Option Int :=
  if s = "" then some 0 else s.toInt?

/-- mapstructure weak coercion to `int`. -/
def goWeakInt : GoVal → Option Int
  | GoVal.int n => some n
  | GoVal.bool b => some (if b then 1 else 0)
  | GoVal.str s => parseGoInt s

/-- `strconv.ParseBool`: the exact strings Go accepts. -/
def parseGoBool (s : String) : Option Bool :=
  if s = "1" ∨ s = "t" ∨ s = "T" ∨ s = "true" ∨ s = "TRUE" ∨ s = "True" then some true
  else if s = "0" ∨ s = "f" ∨ s = "F" ∨ s = "false" ∨ s = "FALSE" ∨ s = "False" then some false
  else none

/-- mapstructure weak coercion to `bool`: `ParseBool` for strings with the
empty string decoding to `false`, nonzero test for ints. -/
def goWeakBool : GoVal → Option Bool
  | GoVal.bool b => some b
  | GoVal.int n => some (decide (n ≠ 0))
  | GoVal.str s => if s = "" then some false else parseGoBool s

/-- Decode one string-typed struct field from the settings map: an unknown
key leaves the field at Go's zero value `""`; weak string coercion never
fails. -/
def decodeString (st : ViperState) (key : String) : String :=
  match fieldVal st key with
  | none => ""
  | some v => goWeakString v

/-- Decode one int-typed struct field; a present but uncoercible value is
a decode error. -/
def decodeInt (st : ViperState) (key : String) : Except String Int :=
  match fieldVal st key with
  | none => Except.ok 0
  | some v =>
    match goWeakInt v with
    | some n => Except.ok n
    | none => Except.error ("cannot decode key " ++ key)

/-- Decode one bool-typed struct field; a present but uncoercible value is
a decode error. -/
def decodeBool (st : ViperState) (key : String) : Except String Bool :=
  match fieldVal st key with
  | none => Except.ok false
  | some v =>
    match goWeakBool v with
    | some b => Except.ok b
    | none => Except.error ("cannot decode key " ++ key)

/-- `v.Unmarshal(&cfg)`: decode `AllSettings()` into `Config` with
mapstructure.  Because the structs declare only `yaml:` tags, mapstructure
matches each field by its *name* (case-insensitively): every field except
`UseTLS` and `OnStartup` has a name equal to its yaml key, so it decodes
from that key; `UseTLS` and `OnStartup` decode from the keys
`imap.usetls` / `sync.onstartup`, which this program never sets in any
layer, so those fields are left at `false` (the error diagnostic text of a
failed decode is not modelled, only that it fails). -/
def unmarshal (st : ViperState) : Except String Config := do
  let imapPort ← decodeInt st "imap.port"
  let useTLS ← decodeBool st "imap.usetls"
  let webPort ← decodeInt st "web.port"
  let onStartup ← decodeBool st "sync.onstartup"
  Except.ok
    { imap :=
        { host := decodeString st "imap.host"
          port := imapPort
          username := decodeString st "imap.username"
          password := decodeString st "imap.password"
          folder := decodeString st "imap.folder"
          useTLS := useTLS }
      database := { path := decodeString st "database.path" }
      web := { host := decodeString st "web.host", port := webPort }
      sync := { interval := decodeString st "sync.interval", onStartup := onStartup }
      logging :=
        { level := decodeString st "logging.level"
          format := decodeString st "logging.format" } }

/-- `validLevels` of `validate` (a `map[string]bool` membership test). -/
def validLevels : List String := ["debug", "info", "warn", "error"]

/-- `validFormats` of `validate`. -/
def validFormats : List String := ["json", "text"]

/-- `validate` (config.go lines 199-226), with the verbatim error
messages. -/
def validate (cfg : Config) : Except String Unit :=
  if cfg.imap.host = "" then Except.error "imap.host is required"
  else if cfg.imap.username = "" then Except.error "imap.username is required"
  else if cfg.imap.password = "" then Except.error "imap.password is required"
  else if cfg.database.path = "" then Except.error "database.path is required"
  else if !(validLevels.contains cfg.logging.level) then
    Except.error ("invalid log level: " ++ cfg.logging.level ++
      " (must be debug, info, warn, or error)")
  else if !(validFormats.contains cfg.logging.format) then
    Except.error ("invalid log format: " ++ cfg.logging.format ++
      " (must be json or text)")
  else Except.ok ()

/-- The viper state `Load` has built by the time it calls `Unmarshal`:
defaults plus the config-file entries, no `Set` overrides. -/
def loadViperState (entries : FileEntries) (env : Env) : ViperState :=
  { defaults := setDefaults, config := entries, override := [], env := env }

/-- `Load` (config.go lines 55-86): defaults, then the config file when
`configFile` is non-empty (a read/parse failure is returned wrapped as
`"failed to read config file: …"`), then the environment overlay, then
`Unmarshal` (wrapped as `"failed to unmarshal config: …"`), then
`validate` (wrapped as `"config validation failed: …"`). -/
def Load (configFile : String) (fs : FS) (env : Env) : Except String Config :=
  match (if configFile = "" then Except.ok ([] : FileEntries)
         else
           match fs configFile with
           | Except.error e => Except.error ("failed to read config file: " ++ e)
           | Except.ok entries => Except.ok entries) with
  | Except.error e => Except.error e
  | Except.ok entries =>
    match unmarshal (loadViperState entries env) with
    | Except.error e => Except.error ("failed to unmarshal config: " ++ e)
    | Except.ok cfg =>
      match validate cfg with
      | Except.error e => Except.error ("config validation failed: " ++ e)
      | Except.ok _ => Except.ok cfg

/-- One pflag flag: its current value and whether the user explicitly
supplied it on the command line (pflag's `.Changed`). -/
structure CLIFlag (α : Type) where
  value : α
  changed : Bool
deriving DecidableEq, Repr

/-- The flags `LoadWithFlags` declares (config.go lines 91-104), after
`pflag.Parse()`. -/
structure FlagSet where
  configFile : CLIFlag String
  imapHost : CLIFlag String
  imapPort : CLIFlag Int
  imapUsername : CLIFlag String
  imapPassword : CLIFlag String
  imapFolder : CLIFlag String
  imapUseTLS : CLIFlag Bool
  database : CLIFlag String
  webHost : CLIFlag String
  webPort : CLIFlag Int
  syncInterval : CLIFlag String
  syncOnStartup : CLIFlag Bool
  logLevel : CLIFlag String
  logFormat : CLIFlag String
deriving DecidableEq, Repr

/-- What the user wrote on the command line, per flag: `some v` when the
flag was explicitly supplied with value `v`, `none` when the flag never
appeared in argv.  (Malformed argv makes `pflag.Parse` exit the process
before `LoadWithFlags` proceeds, so only well-parsed command lines reach
this point.) -/
structure CLIInput where
  configFile : Option String := none
  imapHost : Option String := none
  imapPort : Option Int := none
  imapUsername : Option String := none
  imapPassword : Option String := none
  imapFolder : Option String := none
  imapUseTLS : Option Bool := none
  database : Option String := none
  webHost : Option String := none
  webPort : Option Int := none
  syncInterval : Option String := none
  syncOnStartup : Option Bool := none
  logLevel : Option String := none
  logFormat : Option String := none
deriving DecidableEq, Repr

/-- How `pflag.Parse` fills one flag: a supplied flag carries the supplied
value with `.Changed = true`; an unsupplied flag keeps the declared
default with `.Changed = false`. -/
def mkFlag {α : Type} (dflt : α) : Option α → CLIFlag α
  | some v => { value := v, changed := true }
  | none => { value := dflt, changed := false }

/-- `pflag.Parse()` for the flag declarations of config.go lines 91-104,
with their declared defaults (`--config` defaults to `"config.yaml"`,
`--imap-use-tls` to `true`, `--sync-on-startup` to `false`, ports to `0`,
strings to `""`). -/
def parseFlags (c : CLIInput) : FlagSet :=
  { configFile := mkFlag "config.yaml" c.configFile
    imapHost := mkFlag "" c.imapHost
    imapPort := mkFlag 0 c.imapPort
    imapUsername := mkFlag "" c.imapUsername
    imapPassword := mkFlag "" c.imapPassword
    imapFolder := mkFlag "" c.imapFolder
    imapUseTLS := mkFlag true c.imapUseTLS
    database := mkFlag "" c.database
    webHost := mkFlag "" c.webHost
    webPort := mkFlag 0 c.webPort
    syncInterval := mkFlag "" c.syncInterval
    syncOnStartup := mkFlag false c.syncOnStartup
    logLevel := mkFlag "" c.logLevel
    logFormat := mkFlag "" c.logFormat }

/-- One guarded `v.Set` call of config.go lines 126-164: contributes an
override entry only when the flag's `.Changed` is true. -/
def optEntry {α : Type} (f : CLIFlag α) (key : String) (enc : α → GoVal) : FileEntries :=
  if f.changed then [(key, enc f.value)] else []

/-- The override layer `LoadWithFlags` builds with its thirteen guarded
`v.Set` calls (config.go lines 126-164), in source order. -/
def cliOverrides (f : FlagSet) : FileEntries :=
  optEntry f.imapHost "imap.host" GoVal.str ++
  optEntry f.imapPort "imap.port" GoVal.int ++
  optEntry f.imapUsername "imap.username" GoVal.str ++
  optEntry f.imapPassword "imap.password" GoVal.str ++
  optEntry f.imapFolder "imap.folder" GoVal.str ++
  optEntry f.imapUseTLS "imap.use_tls" GoVal.bool ++
  optEntry f.database "database.path" GoVal.str ++
  optEntry f.webHost "web.host" GoVal.str ++
  optEntry f.webPort "web.port" GoVal.int ++
  optEntry f.syncInterval "sync.interval" GoVal.str ++
  optEntry f.syncOnStartup "sync.on_startup" GoVal.bool ++
  optEntry f.logLevel "logging.level" GoVal.str ++
  optEntry f.logFormat "logging.format" GoVal.str

/-- The viper state `LoadWithFlags` has built by the time it calls
`Unmarshal` (config.go lines 108-164): defaults, then the config file
named by the `--config` flag when non-empty — with any `ReadInConfig`
error discarded (`_ = v.ReadInConfig()`, line 117) — then the environment
overlay, then the changed-flag overrides. -/
def loadWithFlagsState (c : CLIInput) (fs : FS) (env : Env) : ViperState :=
  let f := parseFlags c
  let entries : FileEntries :=
    if f.configFile.value = "" then []
    else
      match fs f.configFile.value with
      | Except.error _ => []
      | Except.ok es => es
  { defaults := setDefaults, config := entries, override := cliOverrides f, env := env }

/-- `LoadWithFlags` (config.go lines 89-173): builds the layered state and
unmarshals it.  Unlike `Load`, it neither propagates config-file read
errors nor calls `validate`. -/
def LoadWithFlags (c : CLIInput) (fs : FS) (env : Env) : Except String Config :=
  match unmarshal (loadWithFlagsState c fs env) with
  | Except.error e => Except.error ("failed to unmarshal config: " ++ e)
  | Except.ok cfg => Except.ok cfg

/-- Character-level core of `maskPassword` (main.go lines 57-65), on the
byte/character sequence of the password: empty stays empty, length 1 or 2
becomes `***`, otherwise first character, `***`, last character. -/
def maskChars : List Char → List Char
  | [] => []
  | [_] => ['*', '*', '*']
  | [_, _] => ['*', '*', '*']
  | c :: d :: e :: rest => [c, '*', '*', '*', (d :: e :: rest).getLast (by simp)]

/-- `maskPassword` of `cmd/dmarc-viewer/main.go`. -/
def maskPassword (password : String) : String :=
  String.mk (maskChars password.data)

/-! ### Helper lemmas -/

/-- Association lookup distributes over append, preferring the left list. -/
theorem lookup_append (l₁ l₂ : FileEntries) (k : String) :
    (l₁ ++ l₂).lookup k = ((l₁.lookup k).or (l₂.lookup k)) := by
  induction l₁ with
  | nil => simp [List.lookup]
  | cons p t ih =>
    obtain ⟨k', v⟩ := p
    simp only [List.cons_append, List.lookup]
    split <;> simp [ih]

/-- Appending two key-free lists stays key-free. -/
theorem lookup_append_none {l₁ l₂ : FileEntries} {k : String}
    (h₁ : l₁.lookup k = none) (h₂ : l₂.lookup k = none) :
    (l₁ ++ l₂).lookup k = none := by
  rw [lookup_append, h₁, h₂]; rfl

/-- A guarded `v.Set` contributes nothing for a key when the flag was not
changed or the key differs. -/
theorem optEntry_lookup_none {α : Type} (f : CLIFlag α) (key k : String) (enc : α → GoVal)
    (h : f.changed = false ∨ (k == key) = false) :
    (optEntry f key enc).lookup k = none := by
  rcases h with h | h
  · simp [optEntry, h, List.lookup]
  · unfold optEntry
    split
    · simp [List.lookup, h]
    · rfl

/-- The CLI override layer has no entry for a key when, for each of the
thirteen guarded `v.Set` calls, either its flag was not changed or its key
differs. -/
theorem cliOverrides_lookup_none (f : FlagSet) (k : String)
    (h₁ : f.imapHost.changed = false ∨ (k == "imap.host") = false)
    (h₂ : f.imapPort.changed = false ∨ (k == "imap.port") = false)
    (h₃ : f.imapUsername.changed = false ∨ (k == "imap.username") = false)
    (h₄ : f.imapPassword.changed = false ∨ (k == "imap.password") = false)
    (h₅ : f.imapFolder.changed = false ∨ (k == "imap.folder") = false)
    (h₆ : f.imapUseTLS.changed = false ∨ (k == "imap.use_tls") = false)
    (h₇ : f.database.changed = false ∨ (k == "database.path") = false)
    (h₈ : f.webHost.changed = false ∨ (k == "web.host") = false)
    (h₉ : f.webPort.changed = false ∨ (k == "web.port") = false)
    (h₁₀ : f.syncInterval.changed = false ∨ (k == "sync.interval") = false)
    (h₁₁ : f.syncOnStartup.changed = false ∨ (k == "sync.on_startup") = false)
    (h₁₂ : f.logLevel.changed = false ∨ (k == "logging.level") = false)
    (h₁₃ : f.logFormat.changed = false ∨ (k == "logging.format") = false) :
    (cliOverrides f).lookup k = none := by
  unfold cliOverrides
  exact lookup_append_none (lookup_append_none (lookup_append_none (lookup_append_none
    (lookup_append_none (lookup_append_none (lookup_append_none (lookup_append_none
    (lookup_append_none (lookup_append_none (lookup_append_none (lookup_append_none
    (optEntry_lookup_none _ _ _ _ h₁) (optEntry_lookup_none _ _ _ _ h₂))
    (optEntry_lookup_none _ _ _ _ h₃)) (optEntry_lookup_none _ _ _ _ h₄))
    (optEntry_lookup_none _ _ _ _ h₅)) (optEntry_lookup_none _ _ _ _ h₆))
    (optEntry_lookup_none _ _ _ _ h₇)) (optEntry_lookup_none _ _ _ _ h₈))
    (optEntry_lookup_none _ _ _ _ h₉)) (optEntry_lookup_none _ _ _ _ h₁₀))
    (optEntry_lookup_none _ _ _ _ h₁₁)) (optEntry_lookup_none _ _ _ _ h₁₂))
    (optEntry_lookup_none _ _ _ _ h₁₃)

/-- When the override layer lacks a key, `Get` resolves it exactly as it
would with an empty override layer. -/
theorem viperGet_no_override (st : ViperState) (k : String)
    (h : st.override.lookup k = none) :
    viperGet st k = viperGet { st with override := [] } k := by
  simp [viperGet, h, List.lookup]

/-- `validate` succeeds exactly when the four required strings are
non-empty and the two logging enumerations hold. -/
theorem validate_ok_iff (cfg : Config) :
    validate cfg = Except.ok () ↔
      (cfg.imap.host ≠ "" ∧ cfg.imap.username ≠ "" ∧ cfg.imap.password ≠ "" ∧
       cfg.database.path ≠ "" ∧
       (cfg.logging.level = "debug" ∨ cfg.logging.level = "info" ∨
        cfg.logging.level = "warn" ∨ cfg.logging.level = "error") ∧
       (cfg.logging.format = "json" ∨ cfg.logging.format = "text")) := by
  unfold validate
  split_ifs with h1 h2 h3 h4 h5 h6 <;>
    (first
      | (simp_all [validLevels, validFormats]; done)
      | (simp_all [validLevels, validFormats]; tauto))

/-! ### Claim theorems -/

/-- Claim C7: `setDefaults` registers exactly the documented defaults —
imap.port 993, imap.folder "INBOX", imap.use_tls true, database.path
"./dmarc-reports.db", web.host "localhost", web.port 8080, sync.interval
"15m", sync.on_startup true, logging.level "info", logging.format "text" —
registers no default for imap.host, imap.username or imap.password, and
registers nothing else (its key set is exactly those ten keys; as a
constant definition it is deterministic). -/
theorem setDefaults_exact :
    setDefaults.lookup "imap.port" = some (GoVal.int 993) ∧
    setDefaults.lookup "imap.folder" = some (GoVal.str "INBOX") ∧
    setDefaults.lookup "imap.use_tls" = some (GoVal.bool true) ∧
    setDefaults.lookup "database.path" = some (GoVal.str "./dmarc-reports.db") ∧
    setDefaults.lookup "web.host" = some (GoVal.str "localhost") ∧
    setDefaults.lookup "web.port" = some (GoVal.int 8080) ∧
    setDefaults.lookup "sync.interval" = some (GoVal.str "15m") ∧
    setDefaults.lookup "sync.on_startup" = some (GoVal.bool true) ∧
    setDefaults.lookup "logging.level" = some (GoVal.str "info") ∧
    setDefaults.lookup "logging.format" = some (GoVal.str "text") ∧
    setDefaults.lookup "imap.host" = none ∧
    setDefaults.lookup "imap.username" = none ∧
    setDefaults.lookup "imap.password" = none ∧
    setDefaults.map Prod.fst =
      ["imap.port", "imap.folder", "imap.use_tls", "database.path", "web.host",
       "web.port", "sync.interval", "sync.on_startup", "logging.level",
       "logging.format"] := by
  decide

/-- Claim C1 (code bug evidence): with `--imap-use-tls` explicitly supplied
as true on the command line, the file setting `imap.use_tls: false` and the
default true, the CLI layer holds true and viper's merged resolution of
`imap.use_tls` is true — yet the returned `Config` carries
`UseTLS = false`, because `Unmarshal` never populates the `UseTLS` field
(the struct has only `yaml:` tags, so mapstructure matches field names and
finds no key `usetls`).  The resolved configuration therefore does not
reflect the highest-priority layer for this key. -/
theorem loadWithFlags_cli_use_tls_dropped :
    (cliOverrides (parseFlags { imapUseTLS := some true })).lookup "imap.use_tls"
        = some (GoVal.bool true) ∧
    viperGet (loadWithFlagsState { imapUseTLS := some true }
        (fun _ => Except.ok [("imap.host", GoVal.str "imap.test.com"),
                             ("imap.username", GoVal.str "u"),
                             ("imap.password", GoVal.str "p"),
                             ("imap.use_tls", GoVal.bool false)]) [])
        "imap.use_tls" = some (GoVal.bool true) ∧
    (LoadWithFlags { imapUseTLS := some true }
        (fun _ => Except.ok [("imap.host", GoVal.str "imap.test.com"),
                             ("imap.username", GoVal.str "u"),
                             ("imap.password", GoVal.str "p"),
                             ("imap.use_tls", GoVal.bool false)]) []).toOption.map
        (fun c => c.imap.useTLS) = some false :=
  ⟨rfl, rfl, rfl⟩

/-- Claim C2 (code bug evidence): a file that declares the imap section
(host, username, password) but omits the boolean leaf `use_tls` yields a
`Config` with `UseTLS = false`, although the defaults registry holds
`imap.use_tls = true` — the unset struct field keeps Go's zero value
because `Unmarshal` never populates it.  (The repository's own test
comments record this: "UseTLS defaults to false when imap section exists
but field not specified".) -/
theorem load_section_omitted_use_tls_false :
    setDefaults.lookup "imap.use_tls" = some (GoVal.bool true) ∧
    (Load "config.yaml"
        (fun _ => Except.ok [("imap.host", GoVal.str "imap.test.com"),
                             ("imap.username", GoVal.str "u"),
                             ("imap.password", GoVal.str "p")]) []).toOption.map
        (fun c => c.imap.useTLS) = some false :=
  ⟨rfl, rfl⟩

/-- Claim C5 (code bug evidence): for a non-empty config path whose
document fails to parse, `Load` propagates the failure wrapped as
"failed to read config file: …", but `LoadWithFlags` discards the very
same `ReadInConfig` error (config.go line 117, despite its comment
claiming only a missing file is ignored) and returns a `Config`
successfully. -/
theorem parse_error_ignored_by_loadWithFlags :
    Load "config.yaml" (fun _ => Except.error "yaml: could not find expected ':'") []
        = Except.error "failed to read config file: yaml: could not find expected ':'" ∧
    (LoadWithFlags {} (fun _ => Except.error "yaml: could not find expected ':'")
        []).toOption.isSome = true :=
  ⟨rfl, rfl⟩

/-- Claim C3 (counterexample): `LoadWithFlags` performs no validation, so
with no readable file, an empty environment and no flags it succeeds and
returns a `Config` whose IMAP host is the empty string — violating the
claimed invariant for the `LoadWithFlags` entry point. -/
theorem loadWithFlags_unvalidated_counterexample :
    (LoadWithFlags {}
        (fun _ => Except.error "open config.yaml: no such file or directory")
        []).toOption.map (fun c => c.imap.host) = some "" :=
  rfl

/-- Claim C3 (amended): every `Config` successfully returned by `Load`
satisfies the invariants — non-empty IMAP host, username and password,
non-empty database path, logging level among debug/info/warn/error and
logging format among json/text — because `Load` returns only configs that
passed `validate`. -/
theorem load_ok_invariants (path : String) (fs : FS) (env : Env) (cfg : Config)
    (h : Load path fs env = Except.ok cfg) :
    cfg.imap.host ≠ "" ∧ cfg.imap.username ≠ "" ∧ cfg.imap.password ≠ "" ∧
      cfg.database.path ≠ "" ∧
      (cfg.logging.level = "debug" ∨ cfg.logging.level = "info" ∨
       cfg.logging.level = "warn" ∨ cfg.logging.level = "error") ∧
      (cfg.logging.format = "json" ∨ cfg.logging.format = "text") := by
  unfold Load at h
  split at h
  · simp at h
  · split at h
    · simp at h
    · split at h
      · simp at h
      · rename_i cfg' hum u hval
        injection h with h
        subst h
        cases u
        exact (validate_ok_iff _).mp hval

/-- Witness for `load_ok_invariants` at a concrete successful `Load`. -/
theorem load_ok_invariants_witness :
    ("imap.test.com" : String) ≠ "" ∧ ("u" : String) ≠ "" ∧ ("p" : String) ≠ "" ∧
      ("./dmarc-reports.db" : String) ≠ "" ∧
      (("info" : String) = "debug" ∨ ("info" : String) = "info" ∨
       ("info" : String) = "warn" ∨ ("info" : String) = "error") ∧
      (("text" : String) = "json" ∨ ("text" : String) = "text") :=
  load_ok_invariants "config.yaml"
    (fun _ => Except.ok [("imap.host", GoVal.str "imap.test.com"),
                         ("imap.username", GoVal.str "u"),
                         ("imap.password", GoVal.str "p")]) []
    { imap := { host := "imap.test.com", port := 993, username := "u",
                password := "p", folder := "INBOX", useTLS := false }
      database := { path := "./dmarc-reports.db" }
      web := { host := "localhost", port := 8080 }
      sync := { interval := "15m", onStartup := false }
      logging := { level := "info", format := "text" } }
    rfl

/-- Claim C8 (counterexample): for a file omitting `imap.host`, `Load`
fails with the wrapped message
"config validation failed: imap.host is required", which is not the bare
"imap.host is required" the claim states. -/
theorem load_missing_host_message_counterexample :
    Load "config.yaml"
        (fun _ => Except.ok [("imap.username", GoVal.str "u"),
                             ("imap.password", GoVal.str "p")]) []
        = Except.error "config validation failed: imap.host is required" ∧
    "config validation failed: imap.host is required" ≠ "imap.host is required" :=
  ⟨rfl, by decide⟩

/-- Claim C8 (amended): whenever `validate` rejects the unmarshalled
config, `Load` returns the inner validation error wrapped with the prefix
"config validation failed: "; in particular a file omitting `imap.host`
(no environment or CLI override) makes resolution fail with exactly
"config validation failed: imap.host is required". -/
theorem load_validation_error_wrapped :
    (∀ (path : String) (fs : FS) (env : Env) (entries : FileEntries)
        (cfg : Config) (e : String),
        path ≠ "" → fs path = Except.ok entries →
        unmarshal (loadViperState entries env) = Except.ok cfg →
        validate cfg = Except.error e →
        Load path fs env = Except.error ("config validation failed: " ++ e)) ∧
    Load "config.yaml"
        (fun _ => Except.ok [("imap.username", GoVal.str "u"),
                             ("imap.password", GoVal.str "p")]) []
        = Except.error "config validation failed: imap.host is required" := by
  constructor
  · intro path fs env entries cfg e hpath hfs hum hv
    unfold Load
    simp [hpath, hfs, hum, hv]
  · rfl

/-- Witness for the wrap property of `load_validation_error_wrapped` at a
concrete input (file omitting `imap.username`). -/
theorem load_validation_error_wrapped_witness :
    Load "config.yaml"
        (fun _ => Except.ok [("imap.host", GoVal.str "h"),
                             ("imap.password", GoVal.str "p")]) []
        = Except.error "config validation failed: imap.username is required" :=
  load_validation_error_wrapped.1 "config.yaml" _ []
    [("imap.host", GoVal.str "h"), ("imap.password", GoVal.str "p")]
    { imap := { host := "h", port := 993, username := "", password := "p",
                folder := "INBOX", useTLS := false }
      database := { path := "./dmarc-reports.db" }
      web := { host := "localhost", port := 8080 }
      sync := { interval := "15m", onStartup := false }
      logging := { level := "info", format := "text" } }
    "imap.username is required" (by decide) rfl rfl rfl

/-- Claim C9: configuration resolution is deterministic — running `Load`
or `LoadWithFlags` on equal file contents, equal environments and equal
command lines yields equal `Config` results (the embedded pipeline is a
pure function of those inputs). -/
theorem load_deterministic (path₁ path₂ : String) (fs₁ fs₂ : FS) (env₁ env₂ : Env)
    (c₁ c₂ : CLIInput) (hp : path₁ = path₂) (hfs : ∀ p, fs₁ p = fs₂ p)
    (he : env₁ = env₂) (hc : c₁ = c₂) :
    Load path₁ fs₁ env₁ = Load path₂ fs₂ env₂ ∧
      LoadWithFlags c₁ fs₁ env₁ = LoadWithFlags c₂ fs₂ env₂ := by
  have hf : fs₁ = fs₂ := funext hfs
  subst hp; subst hf; subst he; subst hc
  exact ⟨rfl, rfl⟩

/-- Witness for `load_deterministic` at concrete inputs. -/
theorem load_deterministic_witness :
    Load "" (fun _ => Except.ok []) [] = Load "" (fun _ => Except.ok []) [] ∧
      LoadWithFlags {} (fun _ => Except.ok []) []
        = LoadWithFlags {} (fun _ => Except.ok []) [] :=
  load_deterministic "" "" _ _ [] [] {} {} rfl (fun _ => rfl) rfl rfl

/-- Claim C4: `validate` checks, in order: imap.host, imap.username,
imap.password, database.path non-empty, then level and format membership;
it returns the first failing check's verbatim message, succeeds exactly
when all six checks pass, and reads no other field (changing IMAP
port/folder/TLS, the web section or the sync section never changes its
result). -/
theorem validate_spec (cfg : Config) :
    (validate cfg = Except.ok () ↔
      (cfg.imap.host ≠ "" ∧ cfg.imap.username ≠ "" ∧ cfg.imap.password ≠ "" ∧
       cfg.database.path ≠ "" ∧
       (cfg.logging.level = "debug" ∨ cfg.logging.level = "info" ∨
        cfg.logging.level = "warn" ∨ cfg.logging.level = "error") ∧
       (cfg.logging.format = "json" ∨ cfg.logging.format = "text"))) ∧
    (cfg.imap.host = "" → validate cfg = Except.error "imap.host is required") ∧
    (cfg.imap.host ≠ "" → cfg.imap.username = "" →
      validate cfg = Except.error "imap.username is required") ∧
    (cfg.imap.host ≠ "" → cfg.imap.username ≠ "" → cfg.imap.password = "" →
      validate cfg = Except.error "imap.password is required") ∧
    (cfg.imap.host ≠ "" → cfg.imap.username ≠ "" → cfg.imap.password ≠ "" →
      cfg.database.path = "" →
      validate cfg = Except.error "database.path is required") ∧
    (cfg.imap.host ≠ "" → cfg.imap.username ≠ "" → cfg.imap.password ≠ "" →
      cfg.database.path ≠ "" →
      ¬(cfg.logging.level = "debug" ∨ cfg.logging.level = "info" ∨
        cfg.logging.level = "warn" ∨ cfg.logging.level = "error") →
      validate cfg = Except.error ("invalid log level: " ++ cfg.logging.level ++
        " (must be debug, info, warn, or error)")) ∧
    (cfg.imap.host ≠ "" → cfg.imap.username ≠ "" → cfg.imap.password ≠ "" →
      cfg.database.path ≠ "" →
      (cfg.logging.level = "debug" ∨ cfg.logging.level = "info" ∨
       cfg.logging.level = "warn" ∨ cfg.logging.level = "error") →
      ¬(cfg.logging.format = "json" ∨ cfg.logging.format = "text") →
      validate cfg = Except.error ("invalid log format: " ++ cfg.logging.format ++
        " (must be json or text)")) ∧
    (∀ (p wp : Int) (f wh si : String) (uts ost : Bool),
      validate { cfg with
          imap := { cfg.imap with port := p, folder := f, useTLS := uts }
          web := { host := wh, port := wp }
          sync := { interval := si, onStartup := ost } } = validate cfg) := by
  refine ⟨validate_ok_iff cfg, ?_, ?_, ?_, ?_, ?_, ?_, ?_⟩
  · intro h1
    simp [validate, h1]
  · intro h1 h2
    simp [validate, h1, h2]
  · intro h1 h2 h3
    simp [validate, h1, h2, h3]
  · intro h1 h2 h3 h4
    simp [validate, h1, h2, h3, h4]
  · intro h1 h2 h3 h4 h5
    simp [validate, validLevels, h1, h2, h3, h4, h5]
  · intro h1 h2 h3 h4 h5 h6
    simp [validate, validLevels, validFormats, h1, h2, h3, h4, h5, h6]
  · intro p wp f wh si uts ost
    simp [validate]

/-- Witness for `validate_spec`: the level check fires with its verbatim
message on a concrete config with an unknown level. -/
theorem validate_spec_witness :
    validate { imap := { host := "h", port := 0, username := "u", password := "p",
                         folder := "", useTLS := true }
               database := { path := "d" }
               web := { host := "", port := 0 }
               sync := { interval := "", onStartup := false }
               logging := { level := "LOUD", format := "text" } }
      = Except.error "invalid log level: LOUD (must be debug, info, warn, or error)" :=
  (validate_spec _).2.2.2.2.2.1 (by decide) (by decide) (by decide) (by decide) (by decide)

/-- Claim C6: every `v.Set` in `LoadWithFlags` is guarded by the flag's
pflag `.Changed` bit, so a flag the user never supplied contributes no
override entry and its declared default cannot overwrite lower layers:
for each unsupplied flag, merged resolution of its key equals resolution
with an empty override layer.  In particular `--imap-use-tls` is declared
with default true, stays `.changed = false` when unsupplied, and a
lower-layer `imap.use_tls: false` from the file survives into the merged
resolution. -/
theorem unchanged_flags_do_not_override (c : CLIInput) (fs : FS) (env : Env) :
    (c.imapHost = none →
      viperGet (loadWithFlagsState c fs env) "imap.host"
        = viperGet { loadWithFlagsState c fs env with override := [] } "imap.host") ∧
    (c.imapPort = none →
      viperGet (loadWithFlagsState c fs env) "imap.port"
        = viperGet { loadWithFlagsState c fs env with override := [] } "imap.port") ∧
    (c.imapUsername = none →
      viperGet (loadWithFlagsState c fs env) "imap.username"
        = viperGet { loadWithFlagsState c fs env with override := [] } "imap.username") ∧
    (c.imapPassword = none →
      viperGet (loadWithFlagsState c fs env) "imap.password"
        = viperGet { loadWithFlagsState c fs env with override := [] } "imap.password") ∧
    (c.imapFolder = none →
      viperGet (loadWithFlagsState c fs env) "imap.folder"
        = viperGet { loadWithFlagsState c fs env with override := [] } "imap.folder") ∧
    (c.imapUseTLS = none →
      viperGet (loadWithFlagsState c fs env) "imap.use_tls"
        = viperGet { loadWithFlagsState c fs env with override := [] } "imap.use_tls") ∧
    (c.database = none →
      viperGet (loadWithFlagsState c fs env) "database.path"
        = viperGet { loadWithFlagsState c fs env with override := [] } "database.path") ∧
    (c.webHost = none →
      viperGet (loadWithFlagsState c fs env) "web.host"
        = viperGet { loadWithFlagsState c fs env with override := [] } "web.host") ∧
    (c.webPort = none →
      viperGet (loadWithFlagsState c fs env) "web.port"
        = viperGet { loadWithFlagsState c fs env with override := [] } "web.port") ∧
    (c.syncInterval = none →
      viperGet (loadWithFlagsState c fs env) "sync.interval"
        = viperGet { loadWithFlagsState c fs env with override := [] } "sync.interval") ∧
    (c.syncOnStartup = none →
      viperGet (loadWithFlagsState c fs env) "sync.on_startup"
        = viperGet { loadWithFlagsState c fs env with override := [] } "sync.on_startup") ∧
    (c.logLevel = none →
      viperGet (loadWithFlagsState c fs env) "logging.level"
        = viperGet { loadWithFlagsState c fs env with override := [] } "logging.level") ∧
    (c.logFormat = none →
      viperGet (loadWithFlagsState c fs env) "logging.format"
        = viperGet { loadWithFlagsState c fs env with override := [] } "logging.format") ∧
    (c.imapUseTLS = none →
      (parseFlags c).imapUseTLS = { value := true, changed := false }) ∧
    (∀ es : FileEntries, c.imapUseTLS = none →
      (parseFlags c).configFile.value ≠ "" →
      fs (parseFlags c).configFile.value = Except.ok es →
      es.lookup "imap.use_tls" = some (GoVal.bool false) →
      envLookup env "imap.use_tls" = none →
      viperGet (loadWithFlagsState c fs env) "imap.use_tls"
        = some (GoVal.bool false)) := by
  refine ⟨?_, ?_, ?_, ?_, ?_, ?_, ?_, ?_, ?_, ?_, ?_, ?_, ?_, ?_, ?_⟩
  · intro h
    exact viperGet_no_override _ _ (cliOverrides_lookup_none _ _
      (Or.inl (by simp [parseFlags, mkFlag, h])) (Or.inr (by decide)) (Or.inr (by decide))
      (Or.inr (by decide)) (Or.inr (by decide)) (Or.inr (by decide)) (Or.inr (by decide))
      (Or.inr (by decide)) (Or.inr (by decide)) (Or.inr (by decide)) (Or.inr (by decide))
      (Or.inr (by decide)) (Or.inr (by decide)))
  · intro h
    exact viperGet_no_override _ _ (cliOverrides_lookup_none _ _
      (Or.inr (by decide)) (Or.inl (by simp [parseFlags, mkFlag, h])) (Or.inr (by decide))
      (Or.inr (by decide)) (Or.inr (by decide)) (Or.inr (by decide)) (Or.inr (by decide))
      (Or.inr (by decide)) (Or.inr (by decide)) (Or.inr (by decide)) (Or.inr (by decide))
      (Or.inr (by decide)) (Or.inr (by decide)))
  · intro h
    exact viperGet_no_override _ _ (cliOverrides_lookup_none _ _
      (Or.inr (by decide)) (Or.inr (by decide)) (Or.inl (by simp [parseFlags, mkFlag, h]))
      (Or.inr (by decide)) (Or.inr (by decide)) (Or.inr (by decide)) (Or.inr (by decide))
      (Or.inr (by decide)) (Or.inr (by decide)) (Or.inr (by decide)) (Or.inr (by decide))
      (Or.inr (by decide)) (Or.inr (by decide)))
  · intro h
    exact viperGet_no_override _ _ (cliOverrides_lookup_none _ _
      (Or.inr (by decide)) (Or.inr (by decide)) (Or.inr (by decide))
      (Or.inl (by simp [parseFlags, mkFlag, h])) (Or.inr (by decide)) (Or.inr (by decide))
      (Or.inr (by decide)) (Or.inr (by decide)) (Or.inr (by decide)) (Or.inr (by decide))
      (Or.inr (by decide)) (Or.inr (by decide)) (Or.inr (by decide)))
  · intro h
    exact viperGet_no_override _ _ (cliOverrides_lookup_none _ _
      (Or.inr (by decide)) (Or.inr (by decide)) (Or.inr (by decide)) (Or.inr (by decide))
      (Or.inl (by simp [parseFlags, mkFlag, h])) (Or.inr (by decide)) (Or.inr (by decide))
      (Or.inr (by decide)) (Or.inr (by decide)) (Or.inr (by decide)) (Or.inr (by decide))
      (Or.inr (by decide)) (Or.inr (by decide)))
  · intro h
    exact viperGet_no_override _ _ (cliOverrides_lookup_none _ _
      (Or.inr (by decide)) (Or.inr (by decide)) (Or.inr (by decide)) (Or.inr (by decide))
      (Or.inr (by decide)) (Or.inl (by simp [parseFlags, mkFlag, h])) (Or.inr (by decide))
      (Or.inr (by decide)) (Or.inr (by decide)) (Or.inr (by decide)) (Or.inr (by decide))
      (Or.inr (by decide)) (Or.inr (by decide)))
  · intro h
    exact viperGet_no_override _ _ (cliOverrides_lookup_none _ _
      (Or.inr (by decide)) (Or.inr (by decide)) (Or.inr (by decide)) (Or.inr (by decide))
      (Or.inr (by decide)) (Or.inr (by decide)) (Or.inl (by simp [parseFlags, mkFlag, h]))
      (Or.inr (by decide)) (Or.inr (by decide)) (Or.inr (by decide)) (Or.inr (by decide))
      (Or.inr (by decide)) (Or.inr (by decide)))
  · intro h
    exact viperGet_no_override _ _ (cliOverrides_lookup_none _ _
      (Or.inr (by decide)) (Or.inr (by decide)) (Or.inr (by decide)) (Or.inr (by decide))
      (Or.inr (by decide)) (Or.inr (by decide)) (Or.inr (by decide))
      (Or.inl (by simp [parseFlags, mkFlag, h])) (Or.inr (by decide)) (Or.inr (by decide))
      (Or.inr (by decide)) (Or.inr (by decide)) (Or.inr (by decide)))
  · intro h
    exact viperGet_no_override _ _ (cliOverrides_lookup_none _ _
      (Or.inr (by decide)) (Or.inr (by decide)) (Or.inr (by decide)) (Or.inr (by decide))
      (Or.inr (by decide)) (Or.inr (by decide)) (Or.inr (by decide)) (Or.inr (by decide))
      (Or.inl (by simp [parseFlags, mkFlag, h])) (Or.inr (by decide)) (Or.inr (by decide))
      (Or.inr (by decide)) (Or.inr (by decide)))
  · intro h
    exact viperGet_no_override _ _ (cliOverrides_lookup_none _ _
      (Or.inr (by decide)) (Or.inr (by decide)) (Or.inr (by decide)) (Or.inr (by decide))
      (Or.inr (by decide)) (Or.inr (by decide)) (Or.inr (by decide)) (Or.inr (by decide))
      (Or.inr (by decide)) (Or.inl (by simp [parseFlags, mkFlag, h])) (Or.inr (by decide))
      (Or.inr (by decide)) (Or.inr (by decide)))
  · intro h
    exact viperGet_no_override _ _ (cliOverrides_lookup_none _ _
      (Or.inr (by decide)) (Or.inr (by decide)) (Or.inr (by decide)) (Or.inr (by decide))
      (Or.inr (by decide)) (Or.inr (by decide)) (Or.inr (by decide)) (Or.inr (by decide))
      (Or.inr (by decide)) (Or.inr (by decide)) (Or.inl (by simp [parseFlags, mkFlag, h]))
      (Or.inr (by decide)) (Or.inr (by decide)))
  · intro h
    exact viperGet_no_override _ _ (cliOverrides_lookup_none _ _
      (Or.inr (by decide)) (Or.inr (by decide)) (Or.inr (by decide)) (Or.inr (by decide))
      (Or.inr (by decide)) (Or.inr (by decide)) (Or.inr (by decide)) (Or.inr (by decide))
      (Or.inr (by decide)) (Or.inr (by decide)) (Or.inr (by decide))
      (Or.inl (by simp [parseFlags, mkFlag, h])) (Or.inr (by decide)))
  · intro h
    exact viperGet_no_override _ _ (cliOverrides_lookup_none _ _
      (Or.inr (by decide)) (Or.inr (by decide)) (Or.inr (by decide)) (Or.inr (by decide))
      (Or.inr (by decide)) (Or.inr (by decide)) (Or.inr (by decide)) (Or.inr (by decide))
      (Or.inr (by decide)) (Or.inr (by decide)) (Or.inr (by decide)) (Or.inr (by decide))
      (Or.inl (by simp [parseFlags, mkFlag, h])))
  · intro h
    simp [parseFlags, mkFlag, h]
  · intro es h hpath hfs hes henv
    have hover : (cliOverrides (parseFlags c)).lookup "imap.use_tls" = none :=
      cliOverrides_lookup_none _ _
        (Or.inr (by decide)) (Or.inr (by decide)) (Or.inr (by decide)) (Or.inr (by decide))
        (Or.inr (by decide)) (Or.inl (by simp [parseFlags, mkFlag, h])) (Or.inr (by decide))
        (Or.inr (by decide)) (Or.inr (by decide)) (Or.inr (by decide)) (Or.inr (by decide))
        (Or.inr (by decide)) (Or.inr (by decide))
    simp [loadWithFlagsState, viperGet, hpath, hfs, hover, henv, hes]

/-- Witness for `unchanged_flags_do_not_override`: with no flags supplied,
a file holding `imap.use_tls: false` resolves to false in the merged key
space. -/
theorem unchanged_flags_do_not_override_witness :
    viperGet (loadWithFlagsState {}
        (fun _ => Except.ok [("imap.use_tls", GoVal.bool false)]) []) "imap.use_tls"
      = some (GoVal.bool false) :=
  (unchanged_flags_do_not_override {}
      (fun _ => Except.ok [("imap.use_tls", GoVal.bool false)])
      []).2.2.2.2.2.2.2.2.2.2.2.2.2.2
    [("imap.use_tls", GoVal.bool false)] rfl (by decide) rfl rfl rfl

/-- The last element of `l ++ [d]` is `d`. -/
theorem getLast_append_singleton (l : List Char) (d : Char) :
    ∀ (h : l ++ [d] ≠ []), (l ++ [d]).getLast h = d := by
  induction l with
  | nil => intro h; rfl
  | cons a t ih =>
    intro h
    cases t with
    | nil => rfl
    | cons b t' => exact ih (by simp)

/-- `maskChars` on a list of length at least three keeps the first and
last characters around the mask. -/
theorem maskChars_long (c m d : Char) (mid : List Char) :
    maskChars (c :: m :: mid ++ [d]) = [c, '*', '*', '*', d] := by
  cases mid with
  | nil =>
    show [c, '*', '*', '*', ([m] ++ [d]).getLast (by simp)] = [c, '*', '*', '*', d]
    rw [getLast_append_singleton [m] d]
  | cons e mid' =>
    show [c, '*', '*', '*', ((m :: e :: mid') ++ [d]).getLast (by simp)]
      = [c, '*', '*', '*', d]
    rw [getLast_append_singleton (m :: e :: mid') d]

/-- Any window of length at least three inside `[c, '*', '*', '*', d]`
contains a `'*'`. -/
theorem star_mem_of_window (s l t : List Char) (c d : Char)
    (h : s ++ l ++ t = [c, '*', '*', '*', d]) (hl : 3 ≤ l.length) : '*' ∈ l := by
  rcases s with _ | ⟨a, _ | ⟨b, _ | ⟨e, s'⟩⟩⟩
  · rcases l with _ | ⟨x, _ | ⟨y, l'⟩⟩
    · simp at hl
    · simp at hl
    · simp only [List.nil_append, List.cons_append, List.cons.injEq] at h
      obtain ⟨-, hy, -⟩ := h
      simp [hy]
  · rcases l with _ | ⟨x, l'⟩
    · simp at hl
    · simp only [List.cons_append, List.nil_append, List.cons.injEq] at h
      obtain ⟨-, hx, -⟩ := h
      simp [hx]
  · rcases l with _ | ⟨x, l'⟩
    · simp at hl
    · simp only [List.cons_append, List.nil_append, List.cons.injEq] at h
      obtain ⟨-, -, hx, -⟩ := h
      simp [hx]
  · exfalso
    have hlen := congrArg List.length h
    simp [List.length_append] at hlen
    omega

/-- Claim C10 (counterexample): for the password "a***b", `maskPassword`
returns the password itself, so the full password does appear in the
output of a non-empty input. -/
theorem maskPassword_counterexample :
    maskPassword "a***b" = "a***b" ∧ ("a***b" : String) ≠ "" :=
  ⟨rfl, by decide⟩

/-- Claim C10 (amended): `maskPassword` returns "" for the empty password,
"***" for passwords of length 1 or 2, and first character ++ "***" ++
last character for length at least 3; the full password never appears as a
contiguous substring of the output for non-empty passwords that contain no
'*' character (for passwords containing '*' it can, e.g. on "a***b"). -/
theorem maskPassword_spec (p : String) :
    (p.length = 0 → maskPassword p = "") ∧
    (p.length = 1 ∨ p.length = 2 → maskPassword p = "***") ∧
    (∀ (c : Char) (mid : List Char) (d : Char),
      p.data = c :: mid ++ [d] → 3 ≤ p.length →
      (maskPassword p).data = [c, '*', '*', '*', d]) ∧
    (p ≠ "" → (∀ ch ∈ p.data, ch ≠ '*') →
      ¬ (p.data <:+: (maskPassword p).data)) := by
  refine ⟨?_, ?_, ?_, ?_⟩
  · intro h
    have hd : p.data = [] := List.length_eq_zero.mp h
    show String.mk (maskChars p.data) = ""
    rw [hd]
    rfl
  · intro h
    have hlen : p.data.length = 1 ∨ p.data.length = 2 := h
    rcases hd : p.data with _ | ⟨a, _ | ⟨b, _ | ⟨e, r⟩⟩⟩ <;> rw [hd] at hlen
    · simp at hlen
    · show String.mk (maskChars p.data) = "***"
      rw [hd]
      rfl
    · show String.mk (maskChars p.data) = "***"
      rw [hd]
      rfl
    · exfalso
      simp [List.length_cons] at hlen
  · intro c mid d hdata hlen
    have hlen' : 3 ≤ p.data.length := hlen
    rcases mid with _ | ⟨m, mid'⟩
    · rw [hdata] at hlen'
      simp at hlen'
    · show maskChars p.data = [c, '*', '*', '*', d]
      rw [hdata]
      exact maskChars_long c m d mid'
  · intro hne hstar hinf
    have hd0 : p.data ≠ [] := by
      intro hh
      exact hne (String.ext hh)
    rcases hd : p.data with _ | ⟨a, _ | ⟨b, _ | ⟨e, r⟩⟩⟩
    · exact hd0 hd
    · have hmask : (maskPassword p).data = ['*', '*', '*'] := by
        show maskChars p.data = _
        rw [hd]
        rfl
      rw [hmask, hd] at hinf
      have hm : a ∈ ['*', '*', '*'] := hinf.subset (by simp)
      simp at hm
      exact hstar a (by rw [hd]; simp) hm
    · have hmask : (maskPassword p).data = ['*', '*', '*'] := by
        show maskChars p.data = _
        rw [hd]
        rfl
      rw [hmask, hd] at hinf
      have hm : a ∈ ['*', '*', '*'] := hinf.subset (by simp)
      simp at hm
      exact hstar a (by rw [hd]; simp) hm
    · have hmask : (maskPassword p).data
          = [a, '*', '*', '*', (b :: e :: r).getLast (by simp)] := by
        show maskChars p.data = _
        rw [hd]
        rfl
      rw [hmask] at hinf
      obtain ⟨s, t, hst⟩ := hinf
      have hmem : '*' ∈ p.data :=
        star_mem_of_window s p.data t a _ hst (by rw [hd]; simp)
      exact hstar '*' hmem rfl

/-- Witness for `maskPassword_spec` on the concrete password "secret". -/
theorem maskPassword_spec_witness :
    (maskPassword "secret").data = ['s', '*', '*', '*', 't'] ∧
      ¬ ("secret".data <:+: (maskPassword "secret").data) :=
  ⟨(maskPassword_spec "secret").2.2.1 's' ['e', 'c', 'r', 'e'] 't'
      (by decide) (by decide),
   (maskPassword_spec "secret").2.2.2 (by decide) (by decide)⟩
